import Mathlib

/-!
Shallow embedding of the dynamolock v3 client (files client_common.go and
client_sortkey.go). Store interactions are modelled by passing the outcomes
of the DynamoDB calls (the decoded read result and the conditional-put
outcome) as explicit inputs to each operation; durations and instants are
integers (nanoseconds). The Lock helper methods and the error values that
live in files of the repository outside the two client files (lock.go and
errors.go) are modelled from the specification and marked as such in their
doc comments.
-/

namespace Dynamolock

/-- Attribute values stored in a lock row: strings, byte payloads, or other
opaque values (mirrors the relevant cases of types.AttributeValue). -/
inductive AttrValue
  | S (s : String)
  | B (b : List Nat)
  | Other (tag : Nat)
  deriving DecidableEq, Repr

/-- A DynamoDB item: an association list from attribute names to values,
standing in for the Go map. Earlier entries shadow later ones on lookup. -/
abbrev Item := List (String × AttrValue)

/-- First-match lookup in an item. -/
def lookupAttr : Item → String → Option AttrValue
  | [], _ => none
  | (k, v) :: rest, k2 => if k2 = k then some v else lookupAttr rest k2

/-- Map write `item[k] = v`: the new binding shadows and erases any old one. -/
def setAttr (m : Item) (k : String) (v : AttrValue) : Item :=
  (k, v) :: m.filter (fun p => !(p.1 == k))

/-- Successive map writes of all entries of `over` into `base`, as in the two
range-copy loops of storeLock (client_common.go lines 344-350): entries of
`over` win on key collision. -/
def overlay (base over : Item) : Item :=
  over.foldl (fun m kv => setAttr m kv.1 kv.2) base

/-- Keys of an item are pairwise distinct, as they are in a Go map. -/
def nodupKeys : Item → Bool
  | [] => true
  | (k, _) :: rest => !((rest.map Prod.fst).contains k) && nodupKeys rest

/-- Remove a set of keys from an item (the delete calls of createLockItem). -/
def stripKeys (item : Item) (ks : List String) : Item :=
  item.filter (fun p => !(ks.contains p.1))

/-- readStringAttr of client_common.go lines 983-988, applied to an optional
map entry: a missing entry or a non-string value reads as the empty string. -/
def readStringAttrO : Option AttrValue → String
  | some (.S s) => s
  | _ => ""

/-- Condition expressions, mirroring the expression-builder calls used by the
client (AttributeExists, AttributeNotExists, Equal, And, Or). -/
inductive Cond
  | attrExists (name : String)
  | attrNotExists (name : String)
  | eqAttr (name : String) (v : AttrValue)
  | and (a b : Cond)
  | or (a b : Cond)
  deriving DecidableEq, Repr

/-- Attribute-name constants of client_common.go lines 36-44. -/
def attrData : String := "data"

/-- Attribute name for the owner column. -/
def attrOwnerName : String := "ownerName"

/-- Attribute name for the lease-duration column. -/
def attrLeaseDuration : String := "leaseDuration"

/-- Attribute name for the record-version-number column. -/
def attrRecordVersionNumber : String := "recordVersionNumber"

/-- Attribute name for the released flag column. -/
def attrIsReleased : String := "isReleased"

/-- defaultBuffer of client_common.go line 43: one second, in nanoseconds. -/
def defaultBuffer : Int := 1000000000

/-- The value written to the isReleased column (isReleasedAttrVal, line 54). -/
def isReleasedAttrVal : AttrValue := .S "1"

/-- In-memory lock handle (the Lock struct; its fields are listed in the spec
data model and are read and written throughout client_common.go). -/
structure Lock where
  partitionKey : String
  data : Option (List Nat)
  deleteLockOnRelease : Bool
  ownerName : String
  leaseDuration : Int
  lookupTime : Int
  recordVersionNumber : String
  isReleased : Bool
  additionalAttributes : Item
  deriving DecidableEq, Repr

/-- Modelled from the spec: Lock.isExpired lives in lock.go, which is not
among the source files; per spec section 4.3 it returns true if `isReleased`
or `now - lookupTime >= leaseDuration`. -/
def Lock.isExpired (l : Lock) (now : Int) : Bool :=
  l.isReleased || decide (l.leaseDuration ≤ now - l.lookupTime)

/-- Modelled from the spec: Lock.uniqueIdentifier lives in lock.go, which is
not among the source files; per spec section 4.3 it is the partition key for
the common client. -/
def Lock.uniqueIdentifier (l : Lock) : String :=
  l.partitionKey

/-- Modelled from the spec: Lock.updateRVN lives in lock.go, which is not
among the source files; per spec section 4.3 it advances the handle in place
with a new RVN, lookup time and lease duration. -/
def Lock.updateRVN (l : Lock) (rvn : String) (t : Int) (d : Int) : Lock :=
  { l with recordVersionNumber := rvn, lookupTime := t, leaseDuration := d }

/-- The zero-valued handle returned by get on a missing row (Go `&Lock\x7b\x7d`). -/
def emptyLock : Lock :=
  { partitionKey := "", data := none, deleteLockOnRelease := false,
    ownerName := "", leaseDuration := 0, lookupTime := 0,
    recordVersionNumber := "", isReleased := false, additionalAttributes := [] }

/-- The per-client configuration fields of commonClient that the lock
protocol reads (client_common.go lines 56-75). -/
structure ClientConfig where
  tableName : String
  partitionKeyName : String
  ownerName : String
  leaseDuration : Int
  deriving DecidableEq, Repr

/-- Errors surfaced by the client, mirroring the error kinds of the spec and
the error values referenced by client_common.go. The two lockNotGranted
constructors model LockNotGrantedError without and with a TimeoutError
cause. clientClosed, ownerMismatched and cannotReleaseNullLock model the
error values of errors.go (not among the source files), modelled from the
spec error table. -/
inductive LockError
  | lockNotGranted (msg : String)
  | lockNotGrantedTimeout (age : Int)
  | clientClosed
  | ownerMismatched
  | cannotReleaseNullLock
  | reservedAttributesError
  | storeError (msg : String)
  deriving DecidableEq, Repr

/-- Outcome of a conditional PutItem call, supplied as an oracle input.
condCheckFailed is the conditional-check-failure error kind. -/
inductive PutOutcome
  | ok
  | condCheckFailed
  | otherError (msg : String)
  deriving DecidableEq, Repr

/-- Record of the conditional put issued by one acquisition attempt (noPut
when the attempt issued no PutItem call). -/
inductive IssuedPut
  | noPut
  | put (item : Item) (cond : Cond)
  deriving DecidableEq, Repr

/-- The condition of an issued put, when one was issued. -/
def issuedCond : IssuedPut → Option Cond
  | .noPut => none
  | .put _ c => some c

/-- Result of one storeLock attempt: a granted lock, a surfaced error, or a
retry (nil lock and nil error in the Go code). -/
inductive AttemptOutcome
  | granted (l : Lock)
  | failed (e : LockError)
  | retry
  deriving DecidableEq, Repr

/-- getLockOptions of client_common.go, the mutable per-acquire state
threaded through storeLock. -/
structure GetLockOptions where
  partitionKey : String
  deleteLockOnRelease : Bool
  replaceData : Bool
  data : Option (List Nat)
  additionalAttributes : Item
  failIfLocked : Bool
  millisecondsToWait : Int
  refreshPeriodDuration : Int
  start : Int
  lockTryingToBeAcquired : Option Lock
  alreadySleptOnceForOneLeasePeriod : Bool
  deriving DecidableEq, Repr

/-- acquireLockOptions of client_common.go as populated by the AcquireLock
option setters (the session monitor callback is omitted: it carries no data
the modelled claims depend on). -/
structure AcquireLockOptions where
  data : Option (List Nat)
  replaceData : Bool
  failIfLocked : Bool
  deleteLockOnRelease : Bool
  refreshPeriod : Int
  additionalTimeToWaitForLock : Int
  additionalAttributes : Item
  deriving DecidableEq, Repr

/-- The five reserved attribute names checked at client_common.go lines
281-285. -/
def reservedAttrNames (partitionKeyName : String) : List String :=
  [partitionKeyName, attrOwnerName, attrLeaseDuration, attrRecordVersionNumber, attrData]

/-- The `contains` closure of acquireLock (lines 272-279): whether any of the
given keys is present in the user-supplied attributes. -/
def containsAnyKey (attrs : Item) (ks : List String) : Bool :=
  ks.any (fun k => (lookupAttr attrs k).isSome)

/-- The serialization of a lease duration written into the item
(c.leaseDuration.String() in Go, modelled as the decimal numeral). -/
def durToString (d : Int) : String := toString d

/-- The inverse parse used by createLockItem (time.ParseDuration in Go,
modelled as integer parsing of the numeral written by durToString). -/
def parseDur (s : String) : Option Int := s.toInt?

/-- The pre-loop part of acquireLock (client_common.go lines 251-306):
closed-client check, reserved-attribute check, and initialization of the
getLockOptions state, including the wait budget (defaultBuffer unless
additionalTimeToWaitForLock is positive) and the refresh period. -/
def acquireLockSetup (c : ClientConfig) (closed : Bool) (pk : String)
    (opt : AcquireLockOptions) (start : Int) : Except LockError GetLockOptions :=
  if closed then .error .clientClosed
  else if containsAnyKey opt.additionalAttributes (reservedAttrNames c.partitionKeyName) then
    .error .reservedAttributesError
  else .ok {
    partitionKey := pk,
    deleteLockOnRelease := opt.deleteLockOnRelease,
    replaceData := opt.replaceData,
    data := opt.data,
    additionalAttributes := opt.additionalAttributes,
    failIfLocked := opt.failIfLocked,
    millisecondsToWait :=
      if 0 < opt.additionalTimeToWaitForLock then opt.additionalTimeToWaitForLock
      else defaultBuffer,
    refreshPeriodDuration :=
      if 0 < opt.refreshPeriod then opt.refreshPeriod else defaultBuffer,
    start := start,
    lockTryingToBeAcquired := none,
    alreadySleptOnceForOneLeasePeriod := false }

/-- The condition of upsertAndMonitorNewOrReleasedLock (lines 484-490):
the partition key does not exist, or it exists and isReleased equals the
canonical released value. -/
def newOrReleasedCond (partitionKeyName : String) : Cond :=
  .or (.attrNotExists partitionKeyName)
      (.and (.attrExists partitionKeyName) (.eqAttr attrIsReleased isReleasedAttrVal))

/-- The condition of upsertAndMonitorExpiredLock (lines 454-457): the
partition key exists and the stored RVN equals the observed one. -/
def expiredLockCond (partitionKeyName observedRVN : String) : Cond :=
  .and (.attrExists partitionKeyName)
       (.eqAttr attrRecordVersionNumber (.S observedRVN))

/-- The message of the failIfLocked immediate LockNotGranted return. -/
def failIfLockedMsg : String :=
  "lock is held and request is configured not to retry"

/-- The data-payload selection of storeLock (lines 332-342): the caller data
under replaceData, else the existing data, else the caller data. -/
def newLockDataOf (replaceData : Bool) (optData : Option (List Nat))
    (existingLock : Option Lock) : Option (List Nat) :=
  let nld : Option (List Nat) :=
    if replaceData then optData
    else match existingLock with
      | some l => l.data
      | none => none
  match nld with
  | none => optData
  | some d => some d

/-- The additional attributes of an optional existing lock
(existingLock.AdditionalAttributes() at line 345; the accessor lives in
lock.go and is nil-safe, returning the stored attribute map). -/
def existingAttrs : Option Lock → Item
  | none => []
  | some l => l.additionalAttributes

/-- putLockItemAndStartSessionMonitor (lines 511-549) given the put outcome:
on success the granted handle carries the fresh RVN, client owner name and
lease duration; a conditional-check failure is wrapped by parseDynamoDBError
into a LockNotGrantedError (errors.go, modelled from the spec: store
condition failures are internally converted to LockNotGranted), which the
storeLock callers turn into a retry; other store errors surface. -/
def putLockOutcome (c : ClientConfig) (opts : GetLockOptions)
    (newLockData : Option (List Nat)) (item : Item) (cond : Cond)
    (rvn : String) (putOutcome : PutOutcome) (now : Int) :
    AttemptOutcome × GetLockOptions × IssuedPut :=
  match putOutcome with
  | .ok =>
      (.granted { partitionKey := opts.partitionKey, data := newLockData,
                  deleteLockOnRelease := opts.deleteLockOnRelease,
                  ownerName := c.ownerName, leaseDuration := c.leaseDuration,
                  lookupTime := now, recordVersionNumber := rvn,
                  isReleased := false,
                  additionalAttributes := opts.additionalAttributes },
       opts, .put item cond)
  | .condCheckFailed => (.retry, opts, .put item cond)
  | .otherError m => (.failed (.storeError m), opts, .put item cond)

/-- The budget check at the tail of storeLock (lines 434-440): if the time
elapsed since the acquire started strictly exceeds millisecondsToWait,
return LockNotGranted wrapping a Timeout carrying the elapsed age. -/
def budgetCheck (opts : GetLockOptions) (now : Int) :
    AttemptOutcome × GetLockOptions × IssuedPut :=
  let t := now - opts.start
  if opts.millisecondsToWait < t then
    (.failed (.lockNotGrantedTimeout t), opts, .noPut)
  else (.retry, opts, .noPut)

/-- The proposed-item construction of storeLock (lines 353-366): the merged
attributes, then the partition key, owner name, lease duration and a fresh
RVN, and the data payload last when one was selected. -/
def proposedItem (c : ClientConfig) (partitionKey : String) (merged : Item)
    (rvn : String) (newLockData : Option (List Nat)) : Item :=
  let item1 := setAttr merged c.partitionKeyName (.S partitionKey)
  let item2 := setAttr item1 attrOwnerName (.S c.ownerName)
  let item3 := setAttr item2 attrLeaseDuration (.S (durToString c.leaseDuration))
  let item4 := setAttr item3 attrRecordVersionNumber (.S rvn)
  match newLockData with
  | some d => setAttr item4 attrData (.B d)
  | none => item4

/-- The merged additional attributes of one attempt (lines 344-351). -/
def mergedAttrs (opts : GetLockOptions) (exo : Option Lock) : Item :=
  overlay (existingAttrs exo) opts.additionalAttributes

/-- The getLockOptions state after the attribute merge of lines 344-351. -/
def optsMerged (opts : GetLockOptions) (exo : Option Lock) : GetLockOptions :=
  { opts with additionalAttributes := mergedAttrs opts exo }

/-- The full item one attempt proposes to write. -/
def storeLockItem (c : ClientConfig) (opts : GetLockOptions) (exo : Option Lock)
    (rvn : String) : Item :=
  proposedItem c opts.partitionKey (mergedAttrs opts exo) rvn
    (newLockDataOf opts.replaceData opts.data exo)

/-- storeLock (client_common.go lines 324-441): one acquisition attempt.
The strongly consistent read result arrives decoded as existingLock, the
fresh RVN stands for generateRecordVersionNumber, and putOutcome is the
store reply to the conditional put, if one is issued. Returns the attempt
outcome, the updated getLockOptions, and the issued put. -/
def storeLock (c : ClientConfig) (opts0 : GetLockOptions)
    (existingLock : Option Lock) (freshRVN : String)
    (putOutcome : PutOutcome) (now : Int) :
    AttemptOutcome × GetLockOptions × IssuedPut :=
  let newLockData := newLockDataOf opts0.replaceData opts0.data existingLock
  let opts : GetLockOptions := optsMerged opts0 existingLock
  let item := storeLockItem c opts0 existingLock freshRVN
  match existingLock with
  | none =>
      putLockOutcome c opts newLockData item (newOrReleasedCond c.partitionKeyName)
        freshRVN putOutcome now
  | some ex =>
    if ex.isReleased then
      putLockOutcome c opts newLockData item (newOrReleasedCond c.partitionKeyName)
        freshRVN putOutcome now
    else
      match opts.lockTryingToBeAcquired with
      | none =>
        if opts.failIfLocked then
          (.failed (.lockNotGranted failIfLockedMsg), opts, .noPut)
        else
          let opts1 := { opts with lockTryingToBeAcquired := some ex }
          let opts2 :=
            if !opts1.alreadySleptOnceForOneLeasePeriod then
              { opts1 with alreadySleptOnceForOneLeasePeriod := true,
                           millisecondsToWait := opts1.millisecondsToWait + ex.leaseDuration }
            else opts1
          budgetCheck opts2 now
      | some inFlight =>
        if inFlight.recordVersionNumber = ex.recordVersionNumber ∧ inFlight.isExpired now = true then
          putLockOutcome c opts newLockData item
            (expiredLockCond c.partitionKeyName ex.recordVersionNumber)
            freshRVN putOutcome now
        else if inFlight.recordVersionNumber ≠ ex.recordVersionNumber then
          budgetCheck { opts with lockTryingToBeAcquired := some ex } now
        else
          budgetCheck opts now

/-- Oracle inputs for one acquisition attempt: the decoded read result, the
fresh RVN, the conditional-put outcome, and the wall-clock instant. -/
structure AttemptInput where
  existing : Option Lock
  freshRVN : String
  putOutcome : PutOutcome
  now : Int
  deriving DecidableEq, Repr

/-- Result of the acquire retry loop: a granted lock, a surfaced error, or
exhaustion of the supplied oracle inputs. -/
inductive AcquireResult
  | granted (l : Lock)
  | failed (e : LockError)
  | exhausted (opts : GetLockOptions)
  deriving DecidableEq, Repr

/-- The retry loop of acquireLock (lines 308-321) over a finite oracle of
attempt inputs. Returns the result, the number of refresh-period sleeps
performed, and the issued-put record of every attempt that ran (one entry
per attempt, so the list length counts the reads performed). -/
def acquireLoop (c : ClientConfig) (opts : GetLockOptions) :
    List AttemptInput → AcquireResult × Nat × List IssuedPut
  | [] => (.exhausted opts, 0, [])
  | i :: rest =>
    match storeLock c opts i.existing i.freshRVN i.putOutcome i.now with
    | (.granted l, _, p) => (.granted l, 0, [p])
    | (.failed e, _, p) => (.failed e, 0, [p])
    | (.retry, opts2, p) =>
      let r := acquireLoop c opts2 rest
      (r.1, r.2.1 + 1, p :: r.2.2)

/-- acquireLock (client_common.go lines 251-322): setup followed by the
retry loop. -/
def acquireLock (c : ClientConfig) (closed : Bool) (pk : String)
    (opt : AcquireLockOptions) (start : Int) (inputs : List AttemptInput) :
    AcquireResult × Nat × List IssuedPut :=
  match acquireLockSetup c closed pk opt start with
  | .error e => (.failed e, 0, [])
  | .ok opts => acquireLoop c opts inputs

/-- createLockItem (client_common.go lines 576-629): decode a stored item
into a Lock handle. Reserved attributes are read and stripped; isReleased is
decoded as mere key presence; the remaining entries become the handle's
additionalAttributes; an unparseable nonempty lease duration is an error. -/
def createLockItem (c : ClientConfig) (pk : String) (deleteLockOnRelease : Bool)
    (item : Item) (now : Int) : Except String Lock :=
  let data : Option (List Nat) :=
    match lookupAttr item attrData with
    | some (.B b) => some b
    | some _ => none
    | none => none
  let ownerName := readStringAttrO (lookupAttr item attrOwnerName)
  let leaseDurationS := readStringAttrO (lookupAttr item attrLeaseDuration)
  let recordVersionNumber := readStringAttrO (lookupAttr item attrRecordVersionNumber)
  let isRel := (lookupAttr item attrIsReleased).isSome
  let rest := stripKeys item
    [attrData, attrOwnerName, attrLeaseDuration, attrRecordVersionNumber,
     attrIsReleased, c.partitionKeyName]
  let mk : Int → Lock := fun d =>
    { partitionKey := pk, data := data,
      deleteLockOnRelease := deleteLockOnRelease, ownerName := ownerName,
      leaseDuration := d, lookupTime := now,
      recordVersionNumber := recordVersionNumber, isReleased := isRel,
      additionalAttributes := rest }
  if leaseDurationS = "" then .ok (mk 0)
  else match parseDur leaseDurationS with
    | none => .error "cannot parse lease duration"
    | some d => .ok (mk d)

/-- Registry lookup (sync.Map.Load keyed by unique identifier). -/
def lookupReg : List (String × Lock) → String → Option Lock
  | [], _ => none
  | (k, l) :: rest, k2 => if k2 = k then some l else lookupReg rest k2

/-- get (client_common.go lines 873-902): closed check, local registry hit,
otherwise a strongly consistent read keyed only on the partition key
(readFromDynamoDB, lines 565-574) whose decoded result has its RVN reset via
updateRVN. Returns the result and the key of the issued GetItem call, when
one was issued. -/
def clientGet (c : ClientConfig) (closed : Bool)
    (registry : List (String × Lock)) (pk : String)
    (readItem : Option Item) (now : Int) :
    Except LockError Lock × Option Item :=
  if closed then (.error .clientClosed, none)
  else
    match lookupReg registry pk with
    | some l => (.ok l, none)
    | none =>
      let key : Item := [(c.partitionKeyName, .S pk)]
      match readItem with
      | none => (.ok emptyLock, some key)
      | some item =>
        match createLockItem c pk false item now with
        | .error m => (.error (.storeError m), some key)
        | .ok l => (.ok (l.updateRVN "" 0 l.leaseDuration), some key)

/-- ClientWithSortKey.AcquireLock (client_sortkey.go lines 51-53): the sort
key argument is accepted and dropped on the way to the common path. -/
def sortKeyAcquireLock (c : ClientConfig) (closed : Bool)
    (pk : String) (sortKey : String) (opt : AcquireLockOptions) (start : Int)
    (inputs : List AttemptInput) : AcquireResult × Nat × List IssuedPut :=
  acquireLock c closed pk opt start inputs

/-- ClientWithSortKey.Get (client_sortkey.go lines 64-66): the sort key
argument is accepted and dropped on the way to the common path. -/
def sortKeyGet (c : ClientConfig) (closed : Bool)
    (registry : List (String × Lock)) (pk : String) (sortKey : String)
    (readItem : Option Item) (now : Int) :
    Except LockError Lock × Option Item :=
  clientGet c closed registry pk readItem now

/-- releaseLockOptions of client_common.go: deleteLock and replacement data. -/
structure ReleaseLockOptions where
  deleteLock : Bool
  data : Option (List Nat)
  deriving DecidableEq, Repr

/-- The ReleaseLockOption setters WithDeleteLock (lines 746-750) and
WithDataAfterRelease (lines 755-759). -/
inductive ReleaseOpt
  | withDeleteLock (b : Bool)
  | withDataAfterRelease (d : List Nat)
  deriving DecidableEq, Repr

/-- Application of one release option to the options record. -/
def applyReleaseOpt (o : ReleaseLockOptions) : ReleaseOpt → ReleaseLockOptions
  | .withDeleteLock b => { o with deleteLock := b }
  | .withDataAfterRelease d => { o with data := some d }

/-- ownershipLockCondition (client_common.go lines 766-775): the partition
key exists, the stored RVN equals the expected one, and the stored owner
name equals the client's. -/
def ownershipLockCondition (partitionKeyName recordVersionNumber ownerName : String) : Cond :=
  .and (.and (.attrExists partitionKeyName)
             (.eqAttr attrRecordVersionNumber (.S recordVersionNumber)))
       (.eqAttr attrOwnerName (.S ownerName))

/-- The update expression of updateLock (lines 837-855): always set
isReleased to the canonical value, and set data only when a nonempty
replacement payload was supplied. -/
def releaseUpdateExpr (data : Option (List Nat)) : List (String × AttrValue) :=
  match data with
  | some d => if 0 < d.length then [(attrIsReleased, isReleasedAttrVal), (attrData, .B d)]
              else [(attrIsReleased, isReleasedAttrVal)]
  | none => [(attrIsReleased, isReleasedAttrVal)]

/-- The conditional store mutation issued by a release: either a DeleteItem
or an UpdateItem, each carrying its key and condition. -/
inductive ReleaseStoreOp
  | deleteItem (key : Item) (cond : Cond)
  | updateItem (key : Item) (update : List (String × AttrValue)) (cond : Cond)
  deriving DecidableEq, Repr

/-- Everything one releaseLock call produces: the error (none on success),
the possibly mutated handle, the registry after the deletion, the issued
store mutation when one was issued, and whether removeKillSessionMonitor
was invoked. -/
structure ReleaseResult where
  err : Option LockError
  lockAfter : Option Lock
  registryAfter : List (String × Lock)
  issuedOp : Option ReleaseStoreOp
  monitorCancelled : Bool
  deriving DecidableEq, Repr

/-- releaseLock (client_common.go lines 777-819). The deleteLock default is
the handle's deleteLockOnRelease flag, then the option setters run. A nil
handle and an owner mismatch return their dedicated errors before any store
call. Otherwise the handle is marked released and removed from the registry,
then the conditional delete or update runs under ownershipLockCondition;
storeFails is the oracle outcome of that call. On store failure the error
returns before removeKillSessionMonitor, but the handle stays locally
released and deregistered. -/
def releaseLock (c : ClientConfig) (registry : List (String × Lock))
    (lockItem : Option Lock) (opts : List ReleaseOpt)
    (storeFails : Option LockError) : ReleaseResult :=
  let options0 : ReleaseLockOptions :=
    { deleteLock := match lockItem with
        | some l => l.deleteLockOnRelease
        | none => false,
      data := none }
  let options := opts.foldl applyReleaseOpt options0
  match lockItem with
  | none =>
    { err := some .cannotReleaseNullLock, lockAfter := none,
      registryAfter := registry, issuedOp := none, monitorCancelled := false }
  | some l =>
    if l.ownerName ≠ c.ownerName then
      { err := some .ownerMismatched, lockAfter := some l,
        registryAfter := registry, issuedOp := none, monitorCancelled := false }
    else
      let l2 := { l with isReleased := true }
      let registry2 := registry.filter (fun p => !(p.1 == l.uniqueIdentifier))
      let cond := ownershipLockCondition c.partitionKeyName l.recordVersionNumber l.ownerName
      let key : Item := [(c.partitionKeyName, .S l.partitionKey)]
      let op := if options.deleteLock then ReleaseStoreOp.deleteItem key cond
                else ReleaseStoreOp.updateItem key (releaseUpdateExpr options.data) cond
      match storeFails with
      | some e =>
        { err := some e, lockAfter := some l2, registryAfter := registry2,
          issuedOp := some op, monitorCancelled := false }
      | none =>
        { err := none, lockAfter := some l2, registryAfter := registry2,
          issuedOp := some op, monitorCancelled := true }

/-- ReleaseLock (client_common.go lines 735-741): the public wrapper checks
the closed flag, runs releaseLock, and returns success as `err == nil`. -/
def releaseLockApi (c : ClientConfig) (closed : Bool)
    (registry : List (String × Lock)) (lockItem : Option Lock)
    (opts : List ReleaseOpt) (storeFails : Option LockError) :
    Bool × ReleaseResult :=
  if closed then
    (false, { err := some .clientClosed, lockAfter := lockItem,
              registryAfter := registry, issuedOp := none, monitorCancelled := false })
  else
    let r := releaseLock c registry lockItem opts storeFails
    (r.err.isNone, r)

/-- releaseAllLocks (client_common.go lines 857-864) unrolled over the
registry entries: release each held lock in turn with the next store
outcome, stopping at the first error (Range stops when the callback returns
false). Returns the final error, the registry left over, and the issued
store mutations. -/
def releaseAll (c : ClientConfig) :
    List (String × Lock) → List (Option LockError) → List (String × Lock) →
    Option LockError × List (String × Lock) × List ReleaseStoreOp
  | [], _, reg => (none, reg, [])
  | (_, l) :: rest, ocs, reg =>
    let r := releaseLock c reg (some l) [] (ocs.headD none)
    match r.err with
    | some e => (some e, r.registryAfter, r.issuedOp.toList)
    | none =>
      let q := releaseAll c rest ocs.tail r.registryAfter
      (q.1, q.2.1, r.issuedOp.toList ++ q.2.2)

/-- The client lifecycle state that Close manipulates: the closed flag, the
sync.Once latch, the held-locks registry, and the heartbeat cancel. -/
structure ClientState where
  closed : Bool
  onceDone : Bool
  registry : List (String × Lock)
  heartbeatStopped : Bool
  deriving DecidableEq, Repr

/-- Close (client_common.go lines 917-929): err starts as ErrClientClosed;
only the first call (closeOnce) releases all locks, stops the heartbeat and
sets the closed flag, and its error is the releaseAllLocks error. Later
calls return ErrClientClosed untouched, with no store mutation. -/
def closeClient (c : ClientConfig) (st : ClientState)
    (outcomes : List (Option LockError)) :
    Option LockError × ClientState × List ReleaseStoreOp :=
  if st.onceDone then (some .clientClosed, st, [])
  else
    let r := releaseAll c st.registry outcomes st.registry
    (r.1,
     { st with registry := r.2.1, heartbeatStopped := true,
               closed := true, onceDone := true },
     r.2.2)

/-- CreateTable (client_common.go lines 674-686): the closed-client gate in
front of the table-creation call; when open it reaches the store with the
configured table name. -/
def createTableApi (c : ClientConfig) (closed : Bool) : Except LockError String :=
  if closed then .error .clientClosed else .ok c.tableName

/-- The granted lock of an attempt outcome, when the attempt granted one. -/
def grantedLock : AttemptOutcome → Option Lock
  | .granted l => some l
  | _ => none

/-- Whether an Except value is a success. -/
def exceptOk {ε α : Type} : Except ε α → Bool
  | .ok _ => true
  | .error _ => false

/-- Iterated key removal from a registry, matching the successive filters a
sequence of releases performs. -/
def removeKeys : List (String × Lock) → List String → List (String × Lock)
  | reg, [] => reg
  | reg, k :: ks => removeKeys (reg.filter (fun q => !(q.1 == k))) ks

/-- The payload policy in the words of the specification: the caller data
when replaceData is set; otherwise the existing row data when the row exists
and has data; otherwise the caller data. Stated for comparison with
newLockDataOf, which is translated from the source. -/
def specDataPolicy (replaceData : Bool) (optData : Option (List Nat))
    (existingLock : Option Lock) : Option (List Nat) :=
  if replaceData then optData
  else match existingLock with
    | some l =>
      match l.data with
      | some d => some d
      | none => optData
    | none => optData

/-- A sample client configuration used by concrete witnesses. -/
def sampleCfg : ClientConfig :=
  { tableName := "locks", partitionKeyName := "key", ownerName := "owner-b",
    leaseDuration := 20 }

/-- A sample getLockOptions state at the start of an acquire. -/
def sampleOpts : GetLockOptions :=
  { partitionKey := "k", deleteLockOnRelease := false, replaceData := false,
    data := none, additionalAttributes := [], failIfLocked := false,
    millisecondsToWait := 1000000000, refreshPeriodDuration := 1000000000,
    start := 0, lockTryingToBeAcquired := none,
    alreadySleptOnceForOneLeasePeriod := false }

/-- A sample live contending lock row with RVN R1 and a two-unit lease. -/
def liveRowR1 : Lock :=
  { partitionKey := "k", data := none, deleteLockOnRelease := false,
    ownerName := "owner-a", leaseDuration := 2, lookupTime := 0,
    recordVersionNumber := "R1", isReleased := false, additionalAttributes := [] }

/-- The same row with a different RVN, for refreshed-owner scenarios. -/
def liveRowR0 : Lock := { liveRowR1 with recordVersionNumber := "R0" }

/-- The sample row after its owner released it in place: isReleased is set
and the RVN is unchanged (updateLock rewrites no RVN). -/
def releasedRowR1 : Lock := { liveRowR1 with isReleased := true }

/-- A released sample row carrying a data payload. -/
def releasedRowWithData : Lock := { releasedRowR1 with data := some [1, 2] }

/-- A sample handle held by the sample client itself. -/
def heldLock : Lock := { liveRowR1 with ownerName := "owner-b" }

/-- Options mid-acquire with liveRowR1 already observed as the contender. -/
def c1Opts : GetLockOptions :=
  { sampleOpts with lockTryingToBeAcquired := some liveRowR1,
                    alreadySleptOnceForOneLeasePeriod := true }

/-- Options whose wait budget of five units is long exhausted. -/
def c4Opts : GetLockOptions := { sampleOpts with millisecondsToWait := 5 }

/-- Exhausted-budget options that already track a contender with RVN R0. -/
def c4wOpts : GetLockOptions :=
  { c4Opts with lockTryingToBeAcquired := some liveRowR0,
                alreadySleptOnceForOneLeasePeriod := true }

/-- Acquire options with failIfLocked set. -/
def c7Opt : AcquireLockOptions :=
  { data := none, replaceData := false, failIfLocked := true,
    deleteLockOnRelease := false, refreshPeriod := 0,
    additionalTimeToWaitForLock := 0, additionalAttributes := [] }

/-- Acquire options whose user attributes smuggle an isReleased column. -/
def c10Opt : AcquireLockOptions :=
  { data := none, replaceData := false, failIfLocked := false,
    deleteLockOnRelease := false, refreshPeriod := 0,
    additionalTimeToWaitForLock := 0,
    additionalAttributes := [("isReleased", .S "yes")] }

/-- A stored row item containing an isReleased attribute. -/
def c10StoredItem : Item := [("isReleased", .S "yes"), ("key", .S "k")]

/-- The handle createLockItem decodes from c10StoredItem. -/
def c10DecodedLock : Lock :=
  { partitionKey := "k", data := none, deleteLockOnRelease := false,
    ownerName := "", leaseDuration := 0, lookupTime := 0,
    recordVersionNumber := "", isReleased := true, additionalAttributes := [] }

/-- A client state after a completed Close. -/
def closedState : ClientState :=
  { closed := true, onceDone := true, registry := [], heartbeatStopped := true }

/-- Helper: the zero-outcome tuple of putLockOutcome on success. -/
theorem putLockOutcome_ok (c : ClientConfig) (o : GetLockOptions)
    (d : Option (List Nat)) (item : Item) (cond : Cond) (rvn : String) (n : Int) :
    putLockOutcome c o d item cond rvn .ok n =
      (.granted { partitionKey := o.partitionKey, data := d,
                  deleteLockOnRelease := o.deleteLockOnRelease,
                  ownerName := c.ownerName, leaseDuration := c.leaseDuration,
                  lookupTime := n, recordVersionNumber := rvn,
                  isReleased := false,
                  additionalAttributes := o.additionalAttributes },
       o, .put item cond) := rfl

/-- Helper: putLockOutcome on a conditional-check failure retries. -/
theorem putLockOutcome_condFail (c : ClientConfig) (o : GetLockOptions)
    (d : Option (List Nat)) (item : Item) (cond : Cond) (rvn : String) (n : Int) :
    putLockOutcome c o d item cond rvn .condCheckFailed n = (.retry, o, .put item cond) := rfl

/-- Helper: putLockOutcome surfaces other store errors. -/
theorem putLockOutcome_err (c : ClientConfig) (o : GetLockOptions)
    (d : Option (List Nat)) (item : Item) (cond : Cond) (rvn : String) (n : Int) (m : String) :
    putLockOutcome c o d item cond rvn (.otherError m) n =
      (.failed (.storeError m), o, .put item cond) := rfl

/-- Helper: every putLockOutcome issues exactly the given put. -/
theorem putLockOutcome_snd (c : ClientConfig) (o : GetLockOptions)
    (d : Option (List Nat)) (item : Item) (cond : Cond) (rvn : String)
    (po : PutOutcome) (n : Int) :
    (putLockOutcome c o d item cond rvn po n).2.2 = .put item cond := by
  cases po <;> rfl

/-- Helper: putLockOutcome passes the options state through unchanged. -/
theorem putLockOutcome_opts (c : ClientConfig) (o : GetLockOptions)
    (d : Option (List Nat)) (item : Item) (cond : Cond) (rvn : String)
    (po : PutOutcome) (n : Int) :
    (putLockOutcome c o d item cond rvn po n).2.1 = o := by
  cases po <;> rfl

/-- Helper: the budget check times out exactly on a strictly exceeded wait. -/
theorem budgetCheck_timeout (o : GetLockOptions) (n : Int)
    (h : o.millisecondsToWait < n - o.start) :
    budgetCheck o n = (.failed (.lockNotGrantedTimeout (n - o.start)), o, .noPut) := by
  simp [budgetCheck, h]

/-- Helper: within budget the check yields a retry. -/
theorem budgetCheck_retry (o : GetLockOptions) (n : Int)
    (h : ¬ o.millisecondsToWait < n - o.start) :
    budgetCheck o n = (.retry, o, .noPut) := by
  simp [budgetCheck, h]

/-- Helper: the budget check issues no put and keeps the options state. -/
theorem budgetCheck_snd (o : GetLockOptions) (n : Int) :
    (budgetCheck o n).2 = (o, .noPut) := by
  simp only [budgetCheck]; split <;> rfl

/-- Helper: the absent-row branch of storeLock issues the I4 put. -/
theorem storeLock_absent (c : ClientConfig) (opts : GetLockOptions) (rvn : String)
    (po : PutOutcome) (now : Int) :
    storeLock c opts none rvn po now =
      putLockOutcome c (optsMerged opts none)
        (newLockDataOf opts.replaceData opts.data none)
        (storeLockItem c opts none rvn)
        (newOrReleasedCond c.partitionKeyName) rvn po now := rfl

/-- Helper: the released-row branch of storeLock issues the I4 put. -/
theorem storeLock_released (c : ClientConfig) (opts : GetLockOptions) (ex : Lock)
    (rvn : String) (po : PutOutcome) (now : Int) (hrel : ex.isReleased = true) :
    storeLock c opts (some ex) rvn po now =
      putLockOutcome c (optsMerged opts (some ex))
        (newLockDataOf opts.replaceData opts.data (some ex))
        (storeLockItem c opts (some ex) rvn)
        (newOrReleasedCond c.partitionKeyName) rvn po now := by
  simp [storeLock, hrel, optsMerged]

/-- Helper: first observation of a live lock under failIfLocked returns a
LockNotGranted error with no put. -/
theorem storeLock_firstObs_failIfLocked (c : ClientConfig) (opts : GetLockOptions)
    (ex : Lock) (rvn : String) (po : PutOutcome) (now : Int)
    (hrel : ex.isReleased = false) (hin : opts.lockTryingToBeAcquired = none)
    (hfil : opts.failIfLocked = true) :
    storeLock c opts (some ex) rvn po now =
      (.failed (.lockNotGranted failIfLockedMsg), optsMerged opts (some ex), .noPut) := by
  simp [storeLock, hrel, hin, hfil, optsMerged]

/-- Helper: first observation of a live lock without failIfLocked records the
contender, extends the budget once, and runs the budget check. -/
theorem storeLock_firstObs_fresh (c : ClientConfig) (opts : GetLockOptions)
    (ex : Lock) (rvn : String) (po : PutOutcome) (now : Int)
    (hrel : ex.isReleased = false) (hin : opts.lockTryingToBeAcquired = none)
    (hfil : opts.failIfLocked = false)
    (halready : opts.alreadySleptOnceForOneLeasePeriod = false) :
    storeLock c opts (some ex) rvn po now =
      budgetCheck { optsMerged opts (some ex) with
                    lockTryingToBeAcquired := some ex,
                    alreadySleptOnceForOneLeasePeriod := true,
                    millisecondsToWait := opts.millisecondsToWait + ex.leaseDuration } now := by
  simp [storeLock, hrel, hin, hfil, halready, optsMerged]

/-- Helper: first observation with the one-lease extension already spent
records the contender without touching the budget. -/
theorem storeLock_firstObs_already (c : ClientConfig) (opts : GetLockOptions)
    (ex : Lock) (rvn : String) (po : PutOutcome) (now : Int)
    (hrel : ex.isReleased = false) (hin : opts.lockTryingToBeAcquired = none)
    (hfil : opts.failIfLocked = false)
    (halready : opts.alreadySleptOnceForOneLeasePeriod = true) :
    storeLock c opts (some ex) rvn po now =
      budgetCheck { optsMerged opts (some ex) with
                    lockTryingToBeAcquired := some ex } now := by
  simp [storeLock, hrel, hin, hfil, halready, optsMerged]

/-- Helper: an unchanged RVN on an expired in-flight contender issues the I5
put conditioned on the observed RVN. -/
theorem storeLock_inflight_expired (c : ClientConfig) (opts : GetLockOptions)
    (ex inFlight : Lock) (rvn : String) (po : PutOutcome) (now : Int)
    (hrel : ex.isReleased = false)
    (hin : opts.lockTryingToBeAcquired = some inFlight)
    (hrvn : inFlight.recordVersionNumber = ex.recordVersionNumber)
    (hexp : inFlight.isExpired now = true) :
    storeLock c opts (some ex) rvn po now =
      putLockOutcome c (optsMerged opts (some ex))
        (newLockDataOf opts.replaceData opts.data (some ex))
        (storeLockItem c opts (some ex) rvn)
        (expiredLockCond c.partitionKeyName ex.recordVersionNumber) rvn po now := by
  simp [storeLock, hrel, hin, hrvn, hexp, optsMerged]

/-- Helper: a changed RVN refreshes the tracked contender and runs the
budget check. -/
theorem storeLock_inflight_changed (c : ClientConfig) (opts : GetLockOptions)
    (ex inFlight : Lock) (rvn : String) (po : PutOutcome) (now : Int)
    (hrel : ex.isReleased = false)
    (hin : opts.lockTryingToBeAcquired = some inFlight)
    (hrvn : inFlight.recordVersionNumber ≠ ex.recordVersionNumber) :
    storeLock c opts (some ex) rvn po now =
      budgetCheck { optsMerged opts (some ex) with
                    lockTryingToBeAcquired := some ex } now := by
  simp [storeLock, hrel, hin, hrvn, optsMerged]

/-- Helper: an unchanged RVN on a still-live contender just runs the budget
check. -/
theorem storeLock_inflight_same_live (c : ClientConfig) (opts : GetLockOptions)
    (ex inFlight : Lock) (rvn : String) (po : PutOutcome) (now : Int)
    (hrel : ex.isReleased = false)
    (hin : opts.lockTryingToBeAcquired = some inFlight)
    (hrvn : inFlight.recordVersionNumber = ex.recordVersionNumber)
    (hexp : inFlight.isExpired now = false) :
    storeLock c opts (some ex) rvn po now =
      budgetCheck (optsMerged opts (some ex)) now := by
  simp [storeLock, hrel, hin, hrvn, hexp, optsMerged]

/-- Helper: every storeLock result is a conditional put on the proposed
item, the failIfLocked immediate denial, or a budget check. -/
theorem storeLock_shape (c : ClientConfig) (opts : GetLockOptions) (exo : Option Lock)
    (rvn : String) (po : PutOutcome) (now : Int) :
    (∃ cond, storeLock c opts exo rvn po now =
       putLockOutcome c (optsMerged opts exo)
         (newLockDataOf opts.replaceData opts.data exo)
         (storeLockItem c opts exo rvn) cond rvn po now) ∨
    storeLock c opts exo rvn po now =
      (.failed (.lockNotGranted failIfLockedMsg), optsMerged opts exo, .noPut) ∨
    (∃ o2, storeLock c opts exo rvn po now = budgetCheck o2 now) := by
  cases exo with
  | none => exact Or.inl ⟨_, storeLock_absent c opts rvn po now⟩
  | some ex =>
    by_cases hrel : ex.isReleased = true
    · exact Or.inl ⟨_, storeLock_released c opts ex rvn po now hrel⟩
    · rw [Bool.not_eq_true] at hrel
      cases hin : opts.lockTryingToBeAcquired with
      | none =>
        by_cases hfil : opts.failIfLocked = true
        · exact Or.inr (Or.inl (storeLock_firstObs_failIfLocked c opts ex rvn po now hrel hin hfil))
        · rw [Bool.not_eq_true] at hfil
          by_cases halready : opts.alreadySleptOnceForOneLeasePeriod = true
          · exact Or.inr (Or.inr ⟨_, storeLock_firstObs_already c opts ex rvn po now hrel hin hfil halready⟩)
          · rw [Bool.not_eq_true] at halready
            exact Or.inr (Or.inr ⟨_, storeLock_firstObs_fresh c opts ex rvn po now hrel hin hfil halready⟩)
      | some inFlight =>
        by_cases hrvn : inFlight.recordVersionNumber = ex.recordVersionNumber
        · by_cases hexp : inFlight.isExpired now = true
          · exact Or.inl ⟨_, storeLock_inflight_expired c opts ex inFlight rvn po now hrel hin hrvn hexp⟩
          · rw [Bool.not_eq_true] at hexp
            exact Or.inr (Or.inr ⟨_, storeLock_inflight_same_live c opts ex inFlight rvn po now hrel hin hrvn hexp⟩)
        · exact Or.inr (Or.inr ⟨_, storeLock_inflight_changed c opts ex inFlight rvn po now hrel hin hrvn⟩)

/-- Helper: filtering out one key leaves lookups of other keys unchanged. -/
theorem lookupAttr_filter_ne (m : Item) (k k2 : String) (h : k2 ≠ k) :
    lookupAttr (m.filter (fun p => !(p.1 == k))) k2 = lookupAttr m k2 := by
  induction m with
  | nil => rfl
  | cons a rest ih =>
    rcases a with ⟨ak, av⟩
    by_cases hak : ak = k
    · subst hak
      simp [List.filter_cons, lookupAttr, h, ih]
    · by_cases hk2 : k2 = ak
      · subst hk2
        simp [List.filter_cons, lookupAttr, hak]
      · simp [List.filter_cons, lookupAttr, hak, hk2, ih]

/-- Helper: writing one key leaves lookups of other keys unchanged. -/
theorem lookupAttr_setAttr_ne (m : Item) (k : String) (v : AttrValue) (k2 : String)
    (h : k2 ≠ k) :
    lookupAttr (setAttr m k v) k2 = lookupAttr m k2 := by
  simp only [setAttr, lookupAttr, if_neg h]
  exact lookupAttr_filter_ne m k k2 h

/-- Helper: writing a key makes its lookup return the written value. -/
theorem lookupAttr_setAttr_self (m : Item) (k : String) (v : AttrValue) :
    lookupAttr (setAttr m k v) k = some v := by
  simp [setAttr, lookupAttr]

/-- Helper: the overlay fold steps one entry at a time. -/
theorem overlay_cons (base : Item) (kv : String × AttrValue) (rest : Item) :
    overlay base (kv :: rest) = overlay (setAttr base kv.1 kv.2) rest := rfl

/-- Helper: overlaying entries with other keys leaves a lookup unchanged. -/
theorem lookupAttr_overlay_not_mem (base over : Item) (k : String)
    (h : (over.map Prod.fst).contains k = false) :
    lookupAttr (overlay base over) k = lookupAttr base k := by
  induction over generalizing base with
  | nil => rfl
  | cons kv rest ih =>
    rcases kv with ⟨k0, v0⟩
    simp only [List.map_cons, List.contains_cons, Bool.or_eq_false_iff, beq_eq_false_iff_ne] at h
    rw [overlay_cons, ih _ (by simpa using h.2)]
    exact lookupAttr_setAttr_ne base k0 v0 k h.1

/-- Helper: overlaying a duplicate-free map makes its entries win lookups. -/
theorem lookupAttr_overlay_some (base over : Item) (k : String) (v : AttrValue)
    (hnd : nodupKeys over = true) (h : lookupAttr over k = some v) :
    lookupAttr (overlay base over) k = some v := by
  induction over generalizing base with
  | nil => exact absurd h (by simp [lookupAttr])
  | cons kv rest ih =>
    rcases kv with ⟨k0, v0⟩
    simp only [nodupKeys, Bool.and_eq_true, Bool.not_eq_true] at hnd
    by_cases hk : k = k0
    · subst hk
      have hv : v0 = v := by simpa [lookupAttr] using h
      subst hv
      rw [overlay_cons, lookupAttr_overlay_not_mem _ _ _ (by simpa using hnd.1),
          lookupAttr_setAttr_self]
    · have h2 : lookupAttr rest k = some v := by simpa [lookupAttr, hk] using h
      rw [overlay_cons]
      exact ih _ hnd.2 h2

/-- Helper: the proposed item does not touch keys other than the five
reserved columns. -/
theorem lookupAttr_proposedItem_other (c : ClientConfig) (pk : String)
    (merged : Item) (rvn : String) (nld : Option (List Nat)) (k : String)
    (h1 : k ≠ c.partitionKeyName) (h2 : k ≠ attrOwnerName)
    (h3 : k ≠ attrLeaseDuration) (h4 : k ≠ attrRecordVersionNumber)
    (h5 : k ≠ attrData) :
    lookupAttr (proposedItem c pk merged rvn nld) k = lookupAttr merged k := by
  cases nld with
  | none =>
    simp only [proposedItem]
    rw [lookupAttr_setAttr_ne _ _ _ _ h4, lookupAttr_setAttr_ne _ _ _ _ h3,
        lookupAttr_setAttr_ne _ _ _ _ h2, lookupAttr_setAttr_ne _ _ _ _ h1]
  | some d =>
    simp only [proposedItem]
    rw [lookupAttr_setAttr_ne _ _ _ _ h5, lookupAttr_setAttr_ne _ _ _ _ h4,
        lookupAttr_setAttr_ne _ _ _ _ h3, lookupAttr_setAttr_ne _ _ _ _ h2,
        lookupAttr_setAttr_ne _ _ _ _ h1]

/-- Helper: when an attempt issues a put, the item is the proposed item. -/
theorem storeLock_put_item (c : ClientConfig) (opts : GetLockOptions)
    (exo : Option Lock) (rvn : String) (po : PutOutcome) (now : Int)
    (item : Item) (cond : Cond)
    (h : (storeLock c opts exo rvn po now).2.2 = .put item cond) :
    item = storeLockItem c opts exo rvn := by
  rcases storeLock_shape c opts exo rvn po now with ⟨cond2, heq⟩ | heq | ⟨o2, heq⟩
  · rw [heq, putLockOutcome_snd] at h
    injection h with h1 h2
    exact h1.symm
  · rw [heq] at h
    exact absurd h (by simp)
  · rw [heq] at h
    have := budgetCheck_snd o2 now
    have h2 : (budgetCheck o2 now).2.2 = IssuedPut.noPut := by rw [this]
    rw [h] at h2
    exact absurd h2 (by simp)

/-- Helper: the granted handle of an attempt always carries the selected
payload, the fresh RVN, and the client owner name and lease duration. -/
theorem storeLock_granted (c : ClientConfig) (opts : GetLockOptions)
    (exo : Option Lock) (rvn : String) (po : PutOutcome) (now : Int) (l : Lock)
    (h : grantedLock (storeLock c opts exo rvn po now).1 = some l) :
    l.data = newLockDataOf opts.replaceData opts.data exo ∧
    l.recordVersionNumber = rvn ∧ l.ownerName = c.ownerName ∧
    l.leaseDuration = c.leaseDuration := by
  rcases storeLock_shape c opts exo rvn po now with ⟨cond2, hputc⟩ | hfl | ⟨o2, hbudget⟩
  · rw [hputc] at h
    cases po with
    | ok =>
      rw [putLockOutcome_ok] at h
      simp only [grantedLock, Option.some.injEq] at h
      subst h
      exact ⟨rfl, rfl, rfl, rfl⟩
    | condCheckFailed => rw [putLockOutcome_condFail] at h; exact absurd h (by simp [grantedLock])
    | otherError m => rw [putLockOutcome_err] at h; exact absurd h (by simp [grantedLock])
  · rw [hfl] at h
    exact absurd h (by simp [grantedLock])
  · rw [hbudget] at h
    simp only [budgetCheck] at h
    split at h <;> exact absurd h (by simp [grantedLock])

/-- Helper: no attempt ever fails with the reserved-attribute error. -/
theorem storeLock_not_reserved (c : ClientConfig) (opts : GetLockOptions)
    (exo : Option Lock) (rvn : String) (po : PutOutcome) (now : Int) :
    (storeLock c opts exo rvn po now).1 ≠ .failed .reservedAttributesError := by
  rcases storeLock_shape c opts exo rvn po now with ⟨cond2, heq⟩ | heq | ⟨o2, heq⟩ <;> rw [heq]
  · cases po <;> simp [putLockOutcome]
  · simp
  · simp only [budgetCheck]
    split <;> simp

/-- Helper: the acquire loop never fails with the reserved-attribute error;
that error can only come from the pre-loop check. -/
theorem acquireLoop_not_reserved (c : ClientConfig) :
    ∀ (inputs : List AttemptInput) (opts : GetLockOptions),
      (acquireLoop c opts inputs).1 ≠ .failed .reservedAttributesError := by
  intro inputs
  induction inputs with
  | nil => intro opts; simp [acquireLoop]
  | cons i rest ih =>
    intro opts
    simp only [acquireLoop]
    rcases hsl : storeLock c opts i.existing i.freshRVN i.putOutcome i.now with ⟨o, opts2, p⟩
    have hno := storeLock_not_reserved c opts i.existing i.freshRVN i.putOutcome i.now
    rw [hsl] at hno
    cases o with
    | granted l => simp
    | failed e => simpa using hno
    | retry => simpa using ih opts2

/-- Helper: the getLockOptions record an open, reserved-name-free acquire
starts from. -/
theorem acquireLockSetup_fields (c : ClientConfig) (pk : String)
    (opt : AcquireLockOptions) (start : Int)
    (hres : containsAnyKey opt.additionalAttributes (reservedAttrNames c.partitionKeyName) = false) :
    acquireLockSetup c false pk opt start = .ok {
      partitionKey := pk, deleteLockOnRelease := opt.deleteLockOnRelease,
      replaceData := opt.replaceData, data := opt.data,
      additionalAttributes := opt.additionalAttributes,
      failIfLocked := opt.failIfLocked,
      millisecondsToWait :=
        if 0 < opt.additionalTimeToWaitForLock then opt.additionalTimeToWaitForLock
        else defaultBuffer,
      refreshPeriodDuration :=
        if 0 < opt.refreshPeriod then opt.refreshPeriod else defaultBuffer,
      start := start, lockTryingToBeAcquired := none,
      alreadySleptOnceForOneLeasePeriod := false } := by
  simp [acquireLockSetup, hres]

/-- Helper: an attempt that reduces to a budget check times out exactly when
the elapsed age strictly exceeds the updated wait budget. -/
theorem budget_from_budgetCheck (c : ClientConfig) (opts : GetLockOptions)
    (exo : Option Lock) (rvn : String) (po : PutOutcome) (now : Int)
    (o2 : GetLockOptions)
    (heq : storeLock c opts exo rvn po now = budgetCheck o2 now)
    (hstart : o2.start = opts.start) :
    ((storeLock c opts exo rvn po now).2.1.millisecondsToWait < now - opts.start →
      (storeLock c opts exo rvn po now).1 =
        .failed (.lockNotGrantedTimeout (now - opts.start))) ∧
    (¬ (storeLock c opts exo rvn po now).2.1.millisecondsToWait < now - opts.start →
      (storeLock c opts exo rvn po now).1 = .retry) := by
  have h21 : (storeLock c opts exo rvn po now).2.1 = o2 := by
    rw [heq]
    exact congrArg Prod.fst (budgetCheck_snd o2 now)
  constructor
  · intro h
    rw [h21, ← hstart] at h
    rw [heq, budgetCheck_timeout o2 now h, hstart]
  · intro h
    rw [h21, ← hstart] at h
    rw [heq, budgetCheck_retry o2 now h]

/-- Helper: a release by the owning client always marks the handle released,
deregisters it, and issues the conditional mutation; the returned error and
the monitor cancellation depend only on the store outcome. -/
theorem releaseLock_owner_match (c : ClientConfig) (reg : List (String × Lock))
    (l : Lock) (opts : List ReleaseOpt) (sf : Option LockError)
    (h : l.ownerName = c.ownerName) :
    releaseLock c reg (some l) opts sf =
      { err := sf, lockAfter := some { l with isReleased := true },
        registryAfter := reg.filter (fun p => !(p.1 == l.uniqueIdentifier)),
        issuedOp := some (if (opts.foldl applyReleaseOpt
              { deleteLock := l.deleteLockOnRelease, data := none }).deleteLock then
            ReleaseStoreOp.deleteItem [(c.partitionKeyName, .S l.partitionKey)]
              (ownershipLockCondition c.partitionKeyName l.recordVersionNumber l.ownerName)
          else
            ReleaseStoreOp.updateItem [(c.partitionKeyName, .S l.partitionKey)]
              (releaseUpdateExpr (opts.foldl applyReleaseOpt
                { deleteLock := l.deleteLockOnRelease, data := none }).data)
              (ownershipLockCondition c.partitionKeyName l.recordVersionNumber l.ownerName)),
        monitorCancelled := sf.isNone } := by
  simp only [releaseLock]
  rw [if_neg (fun hne => hne h)]
  cases sf <;> rfl

/-- Helper: a list of all-none store outcomes always hands out none. -/
theorem headD_none_of_all_none (ocs : List (Option LockError))
    (h : ∀ oc ∈ ocs, oc = none) : ocs.headD none = none := by
  cases ocs with
  | nil => rfl
  | cons a rest => simpa using h a (List.mem_cons_self a rest)

/-- Helper: when every store outcome succeeds and the registry is well
keyed, releasing all locks releases each one: no error, one mutation per
entry, and every processed key removed from the registry. -/
theorem releaseAll_all_ok (c : ClientConfig) :
    ∀ (items : List (String × Lock)) (ocs : List (Option LockError))
      (reg : List (String × Lock)),
      (∀ oc ∈ ocs, oc = none) →
      (∀ p ∈ items, p.2.uniqueIdentifier = p.1 ∧ p.2.ownerName = c.ownerName) →
      (releaseAll c items ocs reg).1 = none ∧
      (releaseAll c items ocs reg).2.1 = removeKeys reg (items.map Prod.fst) ∧
      (releaseAll c items ocs reg).2.2.length = items.length := by
  intro items
  induction items with
  | nil => intro ocs reg h1 h2; exact ⟨rfl, rfl, rfl⟩
  | cons p rest ih =>
    intro ocs reg h1 h2
    rcases p with ⟨k, l⟩
    have hl := h2 (k, l) (List.mem_cons_self _ _)
    have hhead : ocs.headD none = none := headD_none_of_all_none ocs h1
    have hrl := releaseLock_owner_match c reg l [] none hl.2
    have ihr := ih ocs.tail (reg.filter (fun q => !(q.1 == l.uniqueIdentifier)))
      (fun oc hm => h1 oc (List.mem_of_mem_tail hm))
      (fun q hq => h2 q (List.mem_cons_of_mem _ hq))
    simp only [releaseAll, hhead, hrl]
    refine ⟨ihr.1, ?_, ?_⟩
    · rw [ihr.2.1, List.map_cons]
      have hstep : removeKeys reg (k :: rest.map Prod.fst) =
          removeKeys (reg.filter (fun q => !(q.1 == k))) (rest.map Prod.fst) := rfl
      rw [hstep, hl.1]
    · simp [ihr.2.2]

/-- Helper: removing a covering set of keys empties a registry. -/
theorem removeKeys_nil_of_covered :
    ∀ (ks : List String) (reg : List (String × Lock)),
      (∀ q ∈ reg, q.1 ∈ ks) → removeKeys reg ks = [] := by
  intro ks
  induction ks with
  | nil =>
    intro reg h
    cases reg with
    | nil => rfl
    | cons q rest => exact absurd (h q (List.mem_cons_self _ _)) (List.not_mem_nil _)
  | cons k ks ih =>
    intro reg h
    show removeKeys (reg.filter (fun q => !(q.1 == k))) ks = []
    apply ih
    intro q hq
    have hmem := List.mem_filter.mp hq
    have hne : q.1 ≠ k := by simpa using hmem.2
    rcases List.mem_cons.mp (h q hmem.1) with h0 | h0
    · exact absurd h0 hne
    · exact h0

/-- C2: for every acquisition attempt in which the strongly consistent read
finds no existing row, or finds a row marked isReleased, the engine issues a
conditional put whose condition is (the partition key attribute does not
exist) OR (the partition key attribute exists AND isReleased is set); on
condition failure the attempt is treated as not granted, with no error, and
the retry loop proceeds with one more sleep. -/
theorem c2_new_or_released_cas (c : ClientConfig) (opts : GetLockOptions)
    (existingLock : Option Lock) (rvn : String) (po : PutOutcome) (now : Int)
    (hrel : ∀ ex, existingLock = some ex → ex.isReleased = true) :
    issuedCond (storeLock c opts existingLock rvn po now).2.2 =
      some (newOrReleasedCond c.partitionKeyName) ∧
    newOrReleasedCond c.partitionKeyName =
      .or (.attrNotExists c.partitionKeyName)
          (.and (.attrExists c.partitionKeyName) (.eqAttr attrIsReleased (.S "1"))) ∧
    (po = .condCheckFailed → (storeLock c opts existingLock rvn po now).1 = .retry) ∧
    (po = .condCheckFailed → ∀ (rest : List AttemptInput),
      acquireLoop c opts (⟨existingLock, rvn, po, now⟩ :: rest) =
        ((acquireLoop c (storeLock c opts existingLock rvn po now).2.1 rest).1,
         (acquireLoop c (storeLock c opts existingLock rvn po now).2.1 rest).2.1 + 1,
         (storeLock c opts existingLock rvn po now).2.2 ::
           (acquireLoop c (storeLock c opts existingLock rvn po now).2.1 rest).2.2)) := by
  have hbranch : storeLock c opts existingLock rvn po now =
      putLockOutcome c (optsMerged opts existingLock)
        (newLockDataOf opts.replaceData opts.data existingLock)
        (storeLockItem c opts existingLock rvn)
        (newOrReleasedCond c.partitionKeyName) rvn po now := by
    cases existingLock with
    | none => exact storeLock_absent c opts rvn po now
    | some ex => exact storeLock_released c opts ex rvn po now (hrel ex rfl)
  refine ⟨?_, rfl, ?_, ?_⟩
  · rw [hbranch, putLockOutcome_snd]; rfl
  · intro hpo; subst hpo
    rw [hbranch, putLockOutcome_condFail]
  · intro hpo rest; subst hpo
    simp only [acquireLoop]
    rw [hbranch, putLockOutcome_condFail]

/-- C2 witness: a condition failure on an absent row yields a retry. -/
theorem c2_new_or_released_cas_witness :
    (storeLock sampleCfg sampleOpts none "R1" .condCheckFailed 5).1 = .retry :=
  (c2_new_or_released_cas sampleCfg sampleOpts none "R1" .condCheckFailed 5
    (fun ex h => by cases h)).2.2.1 rfl

/-- C1 counterexample: the claim omits that the current row must not be
marked released. After a release the row keeps its RVN, so a read can
return a released row whose RVN equals the observed in-flight RVN while the
in-flight lock is expired; the code then issues the put under the
new-or-released disjunction, not under the claimed exists-and-RVN-matches
conjunction. -/
theorem c1_expired_takeover_counterexample :
    liveRowR1.isExpired 10 = true ∧
    releasedRowR1.recordVersionNumber = liveRowR1.recordVersionNumber ∧
    c1Opts.lockTryingToBeAcquired = some liveRowR1 ∧
    issuedCond (storeLock sampleCfg c1Opts (some releasedRowR1) "R2" .ok 10).2.2 =
      some (newOrReleasedCond "key") ∧
    newOrReleasedCond "key" ≠ expiredLockCond "key" "R1" := by
  decide

/-- C1 (amended: the current read must return a live, non-released row):
when a contending lock was previously observed, the current read returns a
non-released row with the same RVN, and the observed lock is expired, the
engine issues a conditional put whose condition is exactly (partition key
exists) AND (stored RVN equals the observed RVN); on condition failure the
attempt yields no lock and no error, and on success the handle carries the
fresh RVN and the client owner name and lease duration. -/
theorem c1_expired_takeover_cas (c : ClientConfig) (opts : GetLockOptions)
    (ex inFlight : Lock) (rvn : String) (po : PutOutcome) (now : Int)
    (hrel : ex.isReleased = false)
    (hin : opts.lockTryingToBeAcquired = some inFlight)
    (hrvn : inFlight.recordVersionNumber = ex.recordVersionNumber)
    (hexp : inFlight.isExpired now = true) :
    issuedCond (storeLock c opts (some ex) rvn po now).2.2 =
      some (expiredLockCond c.partitionKeyName inFlight.recordVersionNumber) ∧
    expiredLockCond c.partitionKeyName inFlight.recordVersionNumber =
      .and (.attrExists c.partitionKeyName)
           (.eqAttr attrRecordVersionNumber (.S inFlight.recordVersionNumber)) ∧
    (po = .condCheckFailed → (storeLock c opts (some ex) rvn po now).1 = .retry) ∧
    (po = .ok →
      (grantedLock (storeLock c opts (some ex) rvn po now).1).map
          Lock.recordVersionNumber = some rvn ∧
      (grantedLock (storeLock c opts (some ex) rvn po now).1).map
          Lock.ownerName = some c.ownerName ∧
      (grantedLock (storeLock c opts (some ex) rvn po now).1).map
          Lock.leaseDuration = some c.leaseDuration) := by
  have hbranch := storeLock_inflight_expired c opts ex inFlight rvn po now hrel hin hrvn hexp
  rw [← hrvn] at hbranch
  refine ⟨?_, rfl, ?_, ?_⟩
  · rw [hbranch, putLockOutcome_snd]; rfl
  · intro hpo; subst hpo
    rw [hbranch, putLockOutcome_condFail]
  · intro hpo; subst hpo
    rw [hbranch, putLockOutcome_ok]
    exact ⟨rfl, rfl, rfl⟩

/-- C1 witness: a condition failure on the expired-takeover put retries. -/
theorem c1_expired_takeover_cas_witness :
    (storeLock sampleCfg c1Opts (some liveRowR1) "R9" .condCheckFailed 30).1 = .retry :=
  (c1_expired_takeover_cas sampleCfg c1Opts liveRowR1 liveRowR1 "R9" .condCheckFailed 30
    (by decide) (by decide) rfl (by decide)).2.2.1 rfl

/-- C4 counterexample: the claim quantifies over every non-granting attempt,
but an attempt that issues a conditional put and sees it fail returns a
retry without ever reaching the budget check, even when the elapsed age has
exceeded the wait budget. -/
theorem c4_budget_counterexample :
    c4Opts.millisecondsToWait < 1000 - c4Opts.start ∧
    (storeLock sampleCfg c4Opts none "R1" .condCheckFailed 1000).1 = .retry := by
  decide

/-- C4 (amended: the timeout check applies only to attempts that observe a
live non-released contender, do not issue a conditional put, and are not
the failIfLocked immediate return): the wait budget starts at
additionalTimeToWaitForLock or defaultBuffer (one second) when that option
is not positive; it is extended exactly once, by the contending lock's
lease duration, on the first observation of a live non-released lock
without failIfLocked; attempts on absent or released rows, and later
attempts, never change it; a failIfLocked first observation returns plain
LockNotGranted immediately, with no put, no extension and no Timeout; and
on the remaining non-put branches the attempt fails with LockNotGranted
wrapping a Timeout carrying the elapsed age exactly when that age strictly
exceeds the (possibly just extended) budget. -/
theorem c4_budget_and_timeout :
    (∀ (c : ClientConfig) (pk : String) (opt : AcquireLockOptions) (start : Int),
      containsAnyKey opt.additionalAttributes (reservedAttrNames c.partitionKeyName) = false →
      (acquireLockSetup c false pk opt start).map GetLockOptions.millisecondsToWait =
        .ok (if 0 < opt.additionalTimeToWaitForLock then opt.additionalTimeToWaitForLock
             else defaultBuffer)) ∧
    defaultBuffer = 1000000000 ∧
    (∀ (c : ClientConfig) (opts : GetLockOptions) (ex : Lock) (rvn : String)
       (po : PutOutcome) (now : Int),
      ex.isReleased = false → opts.lockTryingToBeAcquired = none →
      opts.failIfLocked = false → opts.alreadySleptOnceForOneLeasePeriod = false →
      (storeLock c opts (some ex) rvn po now).2.1.millisecondsToWait =
        opts.millisecondsToWait + ex.leaseDuration ∧
      (storeLock c opts (some ex) rvn po now).2.1.alreadySleptOnceForOneLeasePeriod = true) ∧
    (∀ (c : ClientConfig) (opts : GetLockOptions) (ex : Lock) (rvn : String)
       (po : PutOutcome) (now : Int),
      ex.isReleased = false → opts.lockTryingToBeAcquired = none →
      opts.failIfLocked = false → opts.alreadySleptOnceForOneLeasePeriod = true →
      (storeLock c opts (some ex) rvn po now).2.1.millisecondsToWait =
        opts.millisecondsToWait) ∧
    (∀ (c : ClientConfig) (opts : GetLockOptions) (ex inFlight : Lock) (rvn : String)
       (po : PutOutcome) (now : Int),
      ex.isReleased = false → opts.lockTryingToBeAcquired = some inFlight →
      (storeLock c opts (some ex) rvn po now).2.1.millisecondsToWait =
        opts.millisecondsToWait) ∧
    (∀ (c : ClientConfig) (opts : GetLockOptions) (exo : Option Lock) (rvn : String)
       (po : PutOutcome) (now : Int),
      (∀ ex, exo = some ex → ex.isReleased = true) →
      (storeLock c opts exo rvn po now).2.1.millisecondsToWait =
        opts.millisecondsToWait) ∧
    (∀ (c : ClientConfig) (opts : GetLockOptions) (ex : Lock) (rvn : String)
       (po : PutOutcome) (now : Int),
      ex.isReleased = false → opts.lockTryingToBeAcquired = none →
      opts.failIfLocked = true →
      storeLock c opts (some ex) rvn po now =
        (.failed (.lockNotGranted failIfLockedMsg), optsMerged opts (some ex), .noPut) ∧
      (storeLock c opts (some ex) rvn po now).2.1.millisecondsToWait =
        opts.millisecondsToWait) ∧
    (∀ (c : ClientConfig) (opts : GetLockOptions) (ex : Lock) (rvn : String)
       (po : PutOutcome) (now : Int),
      ex.isReleased = false →
      ((opts.lockTryingToBeAcquired = none ∧ opts.failIfLocked = false) ∨
       (∃ inFlight, opts.lockTryingToBeAcquired = some inFlight ∧
          ¬(inFlight.recordVersionNumber = ex.recordVersionNumber ∧
            inFlight.isExpired now = true))) →
      (((storeLock c opts (some ex) rvn po now).2.1.millisecondsToWait < now - opts.start →
         (storeLock c opts (some ex) rvn po now).1 =
           .failed (.lockNotGrantedTimeout (now - opts.start))) ∧
       (¬ (storeLock c opts (some ex) rvn po now).2.1.millisecondsToWait < now - opts.start →
         (storeLock c opts (some ex) rvn po now).1 = .retry))) := by
  refine ⟨?_, rfl, ?_, ?_, ?_, ?_, ?_, ?_⟩
  · intro c pk opt start hres
    rw [acquireLockSetup_fields c pk opt start hres]
    rfl
  · intro c opts ex rvn po now hrel hin hfil halready
    rw [storeLock_firstObs_fresh c opts ex rvn po now hrel hin hfil halready]
    rw [budgetCheck_snd]
    exact ⟨rfl, rfl⟩
  · intro c opts ex rvn po now hrel hin hfil halready
    rw [storeLock_firstObs_already c opts ex rvn po now hrel hin hfil halready]
    rw [budgetCheck_snd]
    rfl
  · intro c opts ex inFlight rvn po now hrel hin
    by_cases hrvn : inFlight.recordVersionNumber = ex.recordVersionNumber
    · by_cases hexp : inFlight.isExpired now = true
      · rw [storeLock_inflight_expired c opts ex inFlight rvn po now hrel hin hrvn hexp]
        rw [putLockOutcome_opts]
        rfl
      · rw [Bool.not_eq_true] at hexp
        rw [storeLock_inflight_same_live c opts ex inFlight rvn po now hrel hin hrvn hexp]
        rw [budgetCheck_snd]
        rfl
    · rw [storeLock_inflight_changed c opts ex inFlight rvn po now hrel hin hrvn]
      rw [budgetCheck_snd]
      rfl
  · intro c opts exo rvn po now hrel
    have hbranch : storeLock c opts exo rvn po now =
        putLockOutcome c (optsMerged opts exo)
          (newLockDataOf opts.replaceData opts.data exo)
          (storeLockItem c opts exo rvn)
          (newOrReleasedCond c.partitionKeyName) rvn po now := by
      cases exo with
      | none => exact storeLock_absent c opts rvn po now
      | some ex => exact storeLock_released c opts ex rvn po now (hrel ex rfl)
    rw [hbranch, putLockOutcome_opts]
    rfl
  · intro c opts ex rvn po now hrel hin hfil
    have heq := storeLock_firstObs_failIfLocked c opts ex rvn po now hrel hin hfil
    refine ⟨heq, ?_⟩
    rw [heq]
    rfl
  · intro c opts ex rvn po now hrel hcase
    rcases hcase with ⟨hin, hfil⟩ | ⟨inFlight, hin, hnot⟩
    · by_cases halready : opts.alreadySleptOnceForOneLeasePeriod = true
      · exact budget_from_budgetCheck c opts (some ex) rvn po now _
          (storeLock_firstObs_already c opts ex rvn po now hrel hin hfil halready) rfl
      · rw [Bool.not_eq_true] at halready
        exact budget_from_budgetCheck c opts (some ex) rvn po now _
          (storeLock_firstObs_fresh c opts ex rvn po now hrel hin hfil halready) rfl
    · by_cases hrvn : inFlight.recordVersionNumber = ex.recordVersionNumber
      · have hexp : inFlight.isExpired now = false := by
          rcases Bool.eq_false_or_eq_true (inFlight.isExpired now) with h | h
          · exact absurd ⟨hrvn, h⟩ hnot
          · exact h
        exact budget_from_budgetCheck c opts (some ex) rvn po now _
          (storeLock_inflight_same_live c opts ex inFlight rvn po now hrel hin hrvn hexp) rfl
      · exact budget_from_budgetCheck c opts (some ex) rvn po now _
          (storeLock_inflight_changed c opts ex inFlight rvn po now hrel hin hrvn) rfl

/-- C4 witness: with a tracked contender whose RVN changed and a spent
budget, the attempt times out with the elapsed age. -/
theorem c4_budget_and_timeout_witness :
    (storeLock sampleCfg c4wOpts (some liveRowR1) "R9" .ok 1000).1 =
      .failed (.lockNotGrantedTimeout 1000) := by
  have h := (c4_budget_and_timeout.2.2.2.2.2.2.2 sampleCfg c4wOpts liveRowR1 "R9" .ok 1000
    (by decide) (Or.inr ⟨liveRowR0, by decide, by decide⟩)).1
  have hw : (storeLock sampleCfg c4wOpts (some liveRowR1) "R9" .ok 1000).2.1.millisecondsToWait <
      1000 - c4wOpts.start := by decide
  simpa using h hw

/-- C5: the payload placed in the proposed item follows the policy of the
claim (caller data under replaceData, else existing data when present, else
caller data); every granted handle carries that payload; and a second
acquire with replaceData unset and caller data on a row holding payload X
returns a handle whose payload is X. -/
theorem c5_payload_policy :
    (∀ (r : Bool) (od : Option (List Nat)) (exo : Option Lock),
       newLockDataOf r od exo = specDataPolicy r od exo) ∧
    (∀ (c : ClientConfig) (opts : GetLockOptions) (exo : Option Lock) (rvn : String)
       (po : PutOutcome) (now : Int) (l : Lock),
       grantedLock (storeLock c opts exo rvn po now).1 = some l →
       l.data = newLockDataOf opts.replaceData opts.data exo) ∧
    (∀ (c : ClientConfig) (opts : GetLockOptions) (ex : Lock) (rvn : String) (now : Int)
       (x : List Nat),
       opts.replaceData = false → ex.isReleased = true → ex.data = some x →
       (grantedLock (storeLock c opts (some ex) rvn .ok now).1).map Lock.data =
         some (some x)) := by
  refine ⟨?_, ?_, ?_⟩
  · intro r od exo
    rcases exo with _ | l
    · cases r <;> cases od <;> rfl
    · rcases hd : l.data with _ | d
      · cases r <;> cases od <;> simp [newLockDataOf, specDataPolicy, hd]
      · cases r <;> cases od <;> simp [newLockDataOf, specDataPolicy, hd]
  · intro c opts exo rvn po now l h
    exact (storeLock_granted c opts exo rvn po now l h).1
  · intro c opts ex rvn now x hrep hrel hdata
    rw [storeLock_released c opts ex rvn .ok now hrel, putLockOutcome_ok]
    simp [grantedLock, newLockDataOf, hrep, hdata]

/-- C5 witness: acquiring a released row holding payload X with caller data
absent and replaceData unset grants a handle whose payload is X. -/
theorem c5_payload_policy_witness :
    (grantedLock (storeLock sampleCfg sampleOpts (some releasedRowWithData) "R9" .ok 3).1).map
      Lock.data = some (some [1, 2]) :=
  c5_payload_policy.2.2 sampleCfg sampleOpts releasedRowWithData "R9" 3 [1, 2]
    rfl (by decide) (by decide)

/-- C7: an Acquire with failIfLocked whose first read observes a live,
non-released lock returns LockNotGranted from that very first attempt, with
zero refresh-period sleeps and no conditional put issued. -/
theorem c7_fail_if_locked (c : ClientConfig) (pk : String) (opt : AcquireLockOptions)
    (start : Int) (i : AttemptInput) (rest : List AttemptInput) (ex : Lock)
    (hres : containsAnyKey opt.additionalAttributes (reservedAttrNames c.partitionKeyName) = false)
    (hfil : opt.failIfLocked = true)
    (hex : i.existing = some ex) (hrel : ex.isReleased = false) :
    acquireLock c false pk opt start (i :: rest) =
      (.failed (.lockNotGranted failIfLockedMsg), 0, [.noPut]) := by
  obtain ⟨iex, irvn, ipo, inow⟩ := i
  simp only at hex
  subst hex
  simp only [acquireLock, acquireLockSetup_fields c pk opt start hres, acquireLoop]
  rw [storeLock_firstObs_failIfLocked c _ ex irvn ipo inow hrel rfl hfil]

/-- C7 witness: a concrete failIfLocked acquire against a live lock. -/
theorem c7_fail_if_locked_witness :
    acquireLock sampleCfg false "k" c7Opt 0 [⟨some liveRowR1, "R9", .ok, 7⟩] =
      (.failed (.lockNotGranted failIfLockedMsg), 0, [.noPut]) :=
  c7_fail_if_locked sampleCfg "k" c7Opt 0 ⟨some liveRowR1, "R9", .ok, 7⟩ [] liveRowR1
    (by decide) rfl rfl rfl

/-- C8: an Acquire on an open client fails with the reserved-attribute error
and performs no attempt (so no store call) exactly when the user attributes
contain one of the five reserved names, which are the partition key name,
ownerName, leaseDuration, recordVersionNumber and data. -/
theorem c8_reserved_attribute_names (c : ClientConfig) (pk : String)
    (opt : AcquireLockOptions) (start : Int) (inputs : List AttemptInput) :
    (((acquireLock c false pk opt start inputs).1 = .failed .reservedAttributesError ∧
      (acquireLock c false pk opt start inputs).2.2 = []) ↔
      containsAnyKey opt.additionalAttributes (reservedAttrNames c.partitionKeyName) = true) ∧
    reservedAttrNames c.partitionKeyName =
      [c.partitionKeyName, "ownerName", "leaseDuration", "recordVersionNumber", "data"] := by
  refine ⟨⟨?_, ?_⟩, rfl⟩
  · rintro ⟨h1, _⟩
    by_contra hc
    rw [Bool.not_eq_true] at hc
    rw [acquireLock, acquireLockSetup_fields c pk opt start hc] at h1
    exact acquireLoop_not_reserved c inputs _ h1
  · intro h
    constructor <;> simp [acquireLock, acquireLockSetup, h]

/-- C8 witness: an acquire with an ownerName user attribute is rejected. -/
theorem c8_reserved_attribute_names_witness :
    (acquireLock sampleCfg false "k"
        { c7Opt with failIfLocked := false,
                     additionalAttributes := [("ownerName", .S "x")] } 0 []).1 =
      .failed .reservedAttributesError :=
  ((c8_reserved_attribute_names sampleCfg "k"
      { c7Opt with failIfLocked := false,
                   additionalAttributes := [("ownerName", .S "x")] } 0 []).1.mpr
    (by decide)).1

/-- C9: the sort-key client's AcquireLock and Get are insensitive to the
sort-key argument, and the store read of Get keys only on the partition
key. -/
theorem c9_sort_key_insensitive :
    (∀ (c : ClientConfig) (closed : Bool) (pk s1 s2 : String)
       (opt : AcquireLockOptions) (start : Int) (inputs : List AttemptInput),
       sortKeyAcquireLock c closed pk s1 opt start inputs =
         sortKeyAcquireLock c closed pk s2 opt start inputs) ∧
    (∀ (c : ClientConfig) (closed : Bool) (reg : List (String × Lock))
       (pk s1 s2 : String) (ri : Option Item) (now : Int),
       sortKeyGet c closed reg pk s1 ri now = sortKeyGet c closed reg pk s2 ri now) ∧
    (∀ (c : ClientConfig) (closed : Bool) (reg : List (String × Lock))
       (pk sk : String) (ri : Option Item) (now : Int),
       (sortKeyGet c closed reg pk sk ri now).2 = none ∨
       (sortKeyGet c closed reg pk sk ri now).2 = some [(c.partitionKeyName, .S pk)]) := by
  refine ⟨fun _ _ _ _ _ _ _ _ => rfl, fun _ _ _ _ _ _ _ _ => rfl, ?_⟩
  intro c closed reg pk sk ri now
  cases closed with
  | true => exact Or.inl rfl
  | false =>
    cases hl : lookupReg reg pk with
    | some l => exact Or.inl (by simp [sortKeyGet, clientGet, hl])
    | none =>
      cases ri with
      | none => exact Or.inr (by simp [sortKeyGet, clientGet, hl])
      | some item =>
        cases hcr : createLockItem c pk false item now with
        | error m => exact Or.inr (by simp [sortKeyGet, clientGet, hl, hcr])
        | ok l => exact Or.inr (by simp [sortKeyGet, clientGet, hl, hcr])

/-- C10: the reserved-name check does not cover isReleased — such an acquire
is not rejected, the user value is copied into every item the engine
proposes to write, and any stored item carrying an isReleased key decodes as
a released lock. -/
theorem c10_isReleased_attribute_passthrough (c : ClientConfig) (pk : String)
    (opt : AcquireLockOptions) (start : Int) (v : AttrValue)
    (hpk : c.partitionKeyName ≠ attrIsReleased)
    (hnd : nodupKeys opt.additionalAttributes = true)
    (hattr : lookupAttr opt.additionalAttributes attrIsReleased = some v)
    (hres : containsAnyKey opt.additionalAttributes (reservedAttrNames c.partitionKeyName) = false) :
    exceptOk (acquireLockSetup c false pk opt start) = true ∧
    (∀ (gopts : GetLockOptions) (exo : Option Lock) (rvn : String) (po : PutOutcome)
       (now : Int) (item : Item) (cond : Cond),
       acquireLockSetup c false pk opt start = .ok gopts →
       (storeLock c gopts exo rvn po now).2.2 = .put item cond →
       lookupAttr item attrIsReleased = some v) ∧
    (∀ (item : Item) (l : Lock) (now : Int),
       (lookupAttr item attrIsReleased).isSome = true →
       createLockItem c pk false item now = .ok l → l.isReleased = true) := by
  refine ⟨?_, ?_, ?_⟩
  · rw [acquireLockSetup_fields c pk opt start hres]; rfl
  · intro gopts exo rvn po now item cond h1 h2
    rw [acquireLockSetup_fields c pk opt start hres] at h1
    injection h1 with h1e
    have hga : gopts.additionalAttributes = opt.additionalAttributes := by
      rw [← h1e]
    have hitem := storeLock_put_item c gopts exo rvn po now item cond h2
    subst hitem
    rw [storeLockItem,
        lookupAttr_proposedItem_other c _ _ _ _ attrIsReleased (Ne.symm hpk)
          (by decide) (by decide) (by decide) (by decide)]
    rw [mergedAttrs, hga]
    exact lookupAttr_overlay_some _ _ _ _ hnd hattr
  · intro item l now hs hcr
    simp only [createLockItem] at hcr
    split at hcr
    · injection hcr with he
      rw [← he]
      simpa using hs
    · split at hcr
      · cases hcr
      · injection hcr with he
        rw [← he]
        simpa using hs

/-- C10 witness: a stored item carrying isReleased decodes as released. -/
theorem c10_isReleased_attribute_passthrough_witness :
    c10DecodedLock.isReleased = true :=
  (c10_isReleased_attribute_passthrough sampleCfg "k" c10Opt 0 (.S "yes")
    (by decide) (by decide) (by decide) (by decide)).2.2
    c10StoredItem c10DecodedLock 0 (by decide) (by rfl)

/-- C3: ReleaseLock returns CannotReleaseNullLock on a nil handle and
OwnerMismatched on a foreign handle, with no store mutation in either case;
otherwise it marks the handle released, removes it from the registry, and
issues a conditional Delete (under deleteLock) or an Update setting
isReleased plus the optional data, under (partition key exists) AND (stored
RVN = handle RVN) AND (stored ownerName = client ownerName); the error is
exactly the store outcome, the handle stays locally released and
deregistered even on store failure, and on success the session monitor is
cancelled. -/
theorem c3_release_protocol (c : ClientConfig) (registry : List (String × Lock))
    (lockItem : Option Lock) (opts : List ReleaseOpt) (storeFails : Option LockError) :
    (lockItem = none →
      releaseLockApi c false registry lockItem opts storeFails =
        (false, { err := some .cannotReleaseNullLock, lockAfter := none,
                  registryAfter := registry, issuedOp := none,
                  monitorCancelled := false })) ∧
    (∀ l, lockItem = some l → l.ownerName ≠ c.ownerName →
      releaseLockApi c false registry lockItem opts storeFails =
        (false, { err := some .ownerMismatched, lockAfter := some l,
                  registryAfter := registry, issuedOp := none,
                  monitorCancelled := false })) ∧
    (∀ l, lockItem = some l → l.ownerName = c.ownerName →
      (releaseLockApi c false registry lockItem opts storeFails).2.lockAfter =
        some { l with isReleased := true } ∧
      (releaseLockApi c false registry lockItem opts storeFails).2.registryAfter =
        registry.filter (fun p => !(p.1 == l.uniqueIdentifier)) ∧
      (releaseLockApi c false registry lockItem opts storeFails).2.issuedOp =
        some (if (opts.foldl applyReleaseOpt
              { deleteLock := l.deleteLockOnRelease, data := none }).deleteLock then
            ReleaseStoreOp.deleteItem [(c.partitionKeyName, .S l.partitionKey)]
              (ownershipLockCondition c.partitionKeyName l.recordVersionNumber l.ownerName)
          else
            ReleaseStoreOp.updateItem [(c.partitionKeyName, .S l.partitionKey)]
              (releaseUpdateExpr (opts.foldl applyReleaseOpt
                { deleteLock := l.deleteLockOnRelease, data := none }).data)
              (ownershipLockCondition c.partitionKeyName l.recordVersionNumber l.ownerName)) ∧
      ownershipLockCondition c.partitionKeyName l.recordVersionNumber l.ownerName =
        .and (.and (.attrExists c.partitionKeyName)
                   (.eqAttr attrRecordVersionNumber (.S l.recordVersionNumber)))
             (.eqAttr attrOwnerName (.S l.ownerName)) ∧
      (releaseLockApi c false registry lockItem opts storeFails).2.err = storeFails ∧
      (storeFails = none →
        (releaseLockApi c false registry lockItem opts storeFails).2.monitorCancelled = true)) := by
  refine ⟨?_, ?_, ?_⟩
  · intro h; subst h; rfl
  · intro l hli hne; subst hli
    simp only [releaseLockApi, releaseLock]
    rw [if_pos hne]
    rfl
  · intro l hli h; subst hli
    have hr := releaseLock_owner_match c registry l opts storeFails h
    refine ⟨?_, ?_, ?_, rfl, ?_, ?_⟩
    · simp only [releaseLockApi, hr]; rfl
    · simp only [releaseLockApi, hr]; rfl
    · simp only [releaseLockApi, hr]; rfl
    · simp only [releaseLockApi, hr]; rfl
    · intro hsf; subst hsf
      simp only [releaseLockApi, hr]
      rfl

/-- C3 witness: releasing an owned handle with a successful store update
cancels the session monitor. -/
theorem c3_release_protocol_witness :
    (releaseLockApi sampleCfg false [("k", heldLock)] (some heldLock) [] none).2.monitorCancelled =
      true :=
  ((c3_release_protocol sampleCfg [("k", heldLock)] (some heldLock) [] none).2.2
    heldLock rfl (by decide)).2.2.2.2.2 rfl

/-- C6: Close is idempotent — only the first call does work (releasing held
locks, stopping the heartbeat, setting the closed flag), later calls return
ClientClosed with no store mutation; with successful store outcomes and a
well-keyed registry the first call releases every held lock; and on a
closed client Acquire, Get, ReleaseLock and CreateTable all return
ClientClosed without any store call. -/
theorem c6_close_idempotent (c : ClientConfig) (st : ClientState)
    (outcomes : List (Option LockError)) :
    (st.onceDone = true → closeClient c st outcomes = (some .clientClosed, st, [])) ∧
    (st.onceDone = false →
      (closeClient c st outcomes).2.1.closed = true ∧
      (closeClient c st outcomes).2.1.onceDone = true ∧
      (closeClient c st outcomes).2.1.heartbeatStopped = true ∧
      ((∀ oc ∈ outcomes, oc = none) →
       (∀ p ∈ st.registry, p.2.uniqueIdentifier = p.1 ∧ p.2.ownerName = c.ownerName) →
       (closeClient c st outcomes).1 = none ∧
       (closeClient c st outcomes).2.1.registry = [] ∧
       (closeClient c st outcomes).2.2.length = st.registry.length)) ∧
    (∀ (pk : String) (opt : AcquireLockOptions) (start : Int)
       (inputs : List AttemptInput),
       acquireLock c true pk opt start inputs = (.failed .clientClosed, 0, [])) ∧
    (∀ (reg : List (String × Lock)) (pk : String) (ri : Option Item) (now : Int),
       clientGet c true reg pk ri now = (.error .clientClosed, none)) ∧
    (∀ (reg : List (String × Lock)) (li : Option Lock) (ropts : List ReleaseOpt)
       (sf : Option LockError),
       (releaseLockApi c true reg li ropts sf).1 = false ∧
       (releaseLockApi c true reg li ropts sf).2.err = some .clientClosed ∧
       (releaseLockApi c true reg li ropts sf).2.issuedOp = none) ∧
    createTableApi c true = .error .clientClosed := by
  refine ⟨?_, ?_, ?_, ?_, ?_, rfl⟩
  · intro h
    simp [closeClient, h]
  · intro h
    have hbody : closeClient c st outcomes =
        ((releaseAll c st.registry outcomes st.registry).1,
         { st with registry := (releaseAll c st.registry outcomes st.registry).2.1,
                   heartbeatStopped := true, closed := true, onceDone := true },
         (releaseAll c st.registry outcomes st.registry).2.2) := by
      simp [closeClient, h]
    refine ⟨by rw [hbody], by rw [hbody], by rw [hbody], ?_⟩
    intro hoc hwf
    have hall := releaseAll_all_ok c st.registry outcomes st.registry hoc hwf
    refine ⟨by rw [hbody]; exact hall.1, ?_, by rw [hbody]; exact hall.2.2⟩
    rw [hbody]
    show (releaseAll c st.registry outcomes st.registry).2.1 = []
    rw [hall.2.1]
    apply removeKeys_nil_of_covered
    intro q hq
    exact List.mem_map_of_mem Prod.fst hq
  · intro pk opt start inputs; rfl
  · intro reg pk ri now; rfl
  · intro reg li ropts sf; exact ⟨rfl, rfl, rfl⟩

/-- C6 witness: a second Close returns ClientClosed and does nothing. -/
theorem c6_close_idempotent_witness :
    closeClient sampleCfg closedState [] = (some .clientClosed, closedState, []) :=
  (c6_close_idempotent sampleCfg closedState []).1 rfl

end Dynamolock
